import Mathlib

/-!
Verification of the chess-controller core: a shallow embedding of
`src/hardware/serial_protocol.py` and `src/hardware/devices.py`.

Python strings are modelled as `List Char`, Python ints as `Int`,
`Union[str,int]` ports and `Union[bool,int]` values as small sum types,
and a Python function that may raise as an `Except PyErr` computation.
Raised exception classes are tracked by kind (`ValueError`, `TypeError`,
`IndexError`); their message strings are not modelled.
-/

namespace ChessCtl

/-- Exception kinds a modelled Python function can raise. -/
inductive PyErr where
  | valueError
  | typeError
  | indexError
deriving DecidableEq, Repr

/-- A port argument: Python `Union[str, int]`. -/
inductive PyPort where
  | int (n : Int)
  | str (s : List Char)
deriving DecidableEq, Repr

/-- A value argument: Python `Union[bool, int]`. -/
inductive PyVal where
  | bool (b : Bool)
  | int (n : Int)
deriving DecidableEq, Repr

/-! ### Python `int(...)` applied to a string

`int(s)` strips leading/trailing whitespace, allows one optional `+`/`-`
sign, and then requires a nonempty run of decimal digits; anything else
raises `ValueError` (modelled as `none`). -/

/-- Characters Python strips around an integer literal. -/
def isPyWS (c : Char) : Bool :=
  c = ' ' ∨ c = '\t' ∨ c = '\n' ∨ c = '\r' ∨ c = '\x0b' ∨ c = '\x0c'

/-- Strip `isPyWS` characters from both ends. -/
def pyStrip (s : List Char) : List Char :=
  ((s.dropWhile isPyWS).reverse.dropWhile isPyWS).reverse

/-- Numeric value of a nonempty all-digit run. -/
def digitsVal (u : List Char) : Nat :=
  u.foldl (fun a c => 10 * a + (c.toNat - 48)) 0

/-- Parse the sign-free part of an integer literal. -/
def pyIntDigits (u : List Char) (neg : Bool) : Option Int :=
  if u ≠ [] ∧ u.all Char.isDigit then
    some (if neg then -(digitsVal u : Int) else (digitsVal u : Int))
  else none

/-- Sign handling of an integer literal (after whitespace stripping). -/
def pyIntSigned : List Char → Option Int
  | [] => none
  | c :: u =>
    if c = '+' then pyIntDigits u false
    else if c = '-' then pyIntDigits u true
    else pyIntDigits (c :: u) false

/-- Python `int(s)` on a string: `some n` on success, `none` = `ValueError`. -/
def pyIntParse (s : List Char) : Option Int :=
  pyIntSigned (pyStrip s)

/-! ### Decimal and hexadecimal rendering (Python `str(n)` / `hex(n)[2:]`)

Fuel-based so that the definitions reduce by `decide`/`rfl`; `natDecAux`
is called with fuel `n + 1`, which always suffices since the argument is
divided by the base at each step. -/

def natDecAux : Nat → Nat → List Char → List Char
  | 0, _, acc => acc
  | fuel + 1, n, acc =>
    if n < 10 then Char.ofNat (48 + n) :: acc
    else natDecAux fuel (n / 10) (Char.ofNat (48 + n % 10) :: acc)

/-- Decimal rendering of a natural number, as Python `str(n)` for `n ≥ 0`. -/
def natDec (n : Nat) : List Char := natDecAux (n + 1) n []

/-- Python `str(n)` for an int. -/
def intDec (n : Int) : List Char :=
  if n < 0 then '-' :: natDec (-n).toNat else natDec n.toNat

/-- Lowercase hex digit for `n < 16`. -/
def hexChar (n : Nat) : Char :=
  if n < 10 then Char.ofNat (48 + n) else Char.ofNat (87 + n)

def natHexAux : Nat → Nat → List Char → List Char
  | 0, _, acc => acc
  | fuel + 1, n, acc =>
    if n < 16 then hexChar n :: acc
    else natHexAux fuel (n / 16) (hexChar (n % 16) :: acc)

/-- Minimal lowercase hex digits of a natural number: Python `hex(n)[2:]`. -/
def natHex (n : Nat) : List Char := natHexAux (n + 1) n []

/-! ### `serial_protocol.py`: validation -/

/-- `is_valid_port` (serial_protocol.py lines 17-47): an int in `[0,13]`,
or a 2-character string that is `A0`-`A5`, `M0`-`M3`, `S0`-`S1`, or whose
`int(...)` cast lands in `[0,13]`. -/
def is_valid_port : PyPort → Bool
  | .int n => decide (0 ≤ n ∧ n ≤ 13)
  | .str s =>
    if s.length ≠ 2 then false
    else match s with
      | c0 :: c1 :: _ =>
        if c0 = 'A' then ['0', '1', '2', '3', '4', '5'].contains c1
        else if c0 = 'M' then ['0', '1', '2', '3'].contains c1
        else if c0 = 'S' then ['0', '1'].contains c1
        else match pyIntParse s with
          | some k => decide (0 ≤ k ∧ k ≤ 13)
          | none => false
      | _ => false

/-- `is_valid_value` (lines 50-59): a bool, or an int in `[0, 256)`. -/
def is_valid_value : PyVal → Bool
  | .bool _ => true
  | .int n => decide (0 ≤ n ∧ n < 256)

/-- `is_valid_speed` (lines 62-71): an int in `(0, 256)`. -/
def is_valid_speed (speed : Int) : Bool :=
  decide (0 < speed ∧ speed < 256)

/-- The `MODES` dictionary (long name, wire character). -/
def MODES : List (List Char × Char) :=
  [("INPUT".toList, 'I'), ("OUTPUT".toList, 'O'), ("BRAKE".toList, 'S'),
   ("RELEASE".toList, 'R'), ("FORWARD".toList, 'F'), ("BACKWARD".toList, 'B')]

/-- The value clause of `check_inputs` (line 86):
`if value is not None and port[0] != 'S' and not is_valid_value(value)`.
Subscripting an int port raises `TypeError`; an empty string, `IndexError`. -/
def valueCheck (port : PyPort) (value : Option PyVal) : Except PyErr Unit :=
  match value with
  | none => .ok ()
  | some v =>
    match port with
    | .int _ => .error .typeError
    | .str [] => .error .indexError
    | .str (c :: _) =>
      if c ≠ 'S' ∧ is_valid_value v = false then .error .valueError else .ok ()

/-- The mode clause of `check_inputs` (line 88): the mode must be a key or
a value of `MODES`. -/
def modeCheck (mode : Option (List Char)) : Except PyErr Unit :=
  match mode with
  | none => .ok ()
  | some m =>
    if MODES.all (fun kv => kv.1 ≠ m) ∧ MODES.all (fun kv => [kv.2] ≠ m) then
      .error .valueError
    else .ok ()

/-- The speed clause of `check_inputs` (line 90). -/
def speedCheck (speed : Option Int) : Except PyErr Unit :=
  match speed with
  | none => .ok ()
  | some sp => if is_valid_speed sp then .ok () else .error .valueError

/-- `check_inputs` (lines 74-91): the four validation clauses in source
order, short-circuiting at the first raise. -/
def check_inputs (port : PyPort) (value : Option PyVal)
    (mode : Option (List Char)) (speed : Option Int) : Except PyErr Unit :=
  if is_valid_port port = false then .error .valueError
  else match valueCheck port value with
    | .error e => .error e
    | .ok _ =>
      match modeCheck mode with
      | .error e => .error e
      | .ok _ => speedCheck speed

/-! ### `serial_protocol.py`: formatting -/

/-- `format_port` (lines 94-108): strings pass through; ints under 10 are
zero-padded to two characters. -/
def format_port : PyPort → List Char
  | .str s => s
  | .int n => (if n < 10 then ['0'] else []) ++ intDec n

/-- `format_value` (lines 111-124): `H`/`L` for bools, otherwise the
minimal hex digits with a leading `-` for negatives. -/
def format_value : PyVal → List Char
  | .bool b => if b then ['H'] else ['L']
  | .int n => if n < 0 then '-' :: natHex (-n).toNat else natHex n.toNat

/-- `format_speed` (lines 127-137): `str(speed)`, zero-padded when
`speed < 10`. -/
def format_speed (speed : Int) : List Char :=
  let res := intDec speed
  if speed < 10 then '0' :: res else res

/-- `format_mode` (lines 140-147): key lookup into `MODES`, else
passthrough. -/
def format_mode (m : List Char) : List Char :=
  match MODES.find? (fun kv => kv.1 = m) with
  | some kv => [kv.2]
  | none => m

/-! ### `serial_protocol.py`: the `Serial` command methods

Each method is modelled as a function of the connection flag returning
`Except PyErr (Option frame)`: `.error e` when the Python method raises,
`.ok (some f)` when it writes frame `f` to the wire, and `.ok none` when
it returns without writing (the disconnected path). -/

/-- `Serial.set_value` (lines 186-195). -/
def set_value (connected : Bool) (port : PyPort) (value : PyVal) :
    Except PyErr (Option (List Char)) :=
  match check_inputs port (some value) none none with
  | .error e => .error e
  | .ok _ =>
    .ok (if connected then some (format_port port ++ ':' :: format_value value)
         else none)

/-- `Serial.set_mode` (lines 213-222). -/
def set_mode (connected : Bool) (port : PyPort) (mode : List Char) :
    Except PyErr (Option (List Char)) :=
  match check_inputs port none (some mode) none with
  | .error e => .error e
  | .ok _ =>
    .ok (if connected then some (format_port port ++ '-' :: format_mode mode)
         else none)

/-- `Serial.set_speed` (lines 197-211): `port[0]` is read before any
validation (`TypeError` on int ports, `IndexError` on the empty string);
`M` ports delegate to `set_value`, non-`S` remainders raise after
validation. -/
def set_speed (connected : Bool) (port : PyPort) (speed : Int) :
    Except PyErr (Option (List Char)) :=
  match port with
  | .int _ => .error .typeError
  | .str [] => .error .indexError
  | .str (c :: rest) =>
    if c = 'M' then set_value connected (.str (c :: rest)) (.int speed)
    else match check_inputs (.str (c :: rest)) none none (some speed) with
      | .error e => .error e
      | .ok _ =>
        if c ≠ 'S' then .error .valueError
        else .ok (if connected then
                    some ((c :: rest) ++ '-' :: format_speed speed)
                  else none)

/-- `Serial.get_value` (lines 224-236): validate the port, and when
connected parse the response line with `int(...)` (its `ValueError`
propagates); when disconnected fall through and return `None`. -/
def get_value (connected : Bool) (port : PyPort) (line : List Char) :
    Except PyErr (Option Int) :=
  match check_inputs port none none none with
  | .error e => .error e
  | .ok _ =>
    if connected then
      match pyIntParse line with
      | some n => .ok (some n)
      | none => .error .valueError
    else .ok none

/-! ### `devices.py`: matrix telemetry decoding -/

/-- Python `val.split(';')` on a character list; always nonempty. -/
def splitSemi : List Char → List (List Char)
  | [] => [[]]
  | c :: cs =>
    if c = ';' then [] :: splitSemi cs
    else
      match splitSemi cs with
      | r :: rs => (c :: r) :: rs
      | [] => [[c]]

/-- The decode loop of `DigitalInputMatrix._fetch_value` (lines 104-109):
split the line on `;`, drop the final segment, and map each remaining row
to booleans, XOR-ing the `reversed` flag. No row- or column-count check
is performed. -/
def decodeMatrixLine (val : List Char) (reversed : Bool) : List (List Bool) :=
  ((splitSemi val).dropLast).map (fun row => row.map (fun v => xor (v == '1') reversed))

/-- A telemetry line built from rows, each followed by the `;` terminator
(the wire format the Arduino sends for a matrix read). -/
def joinRows : List (List Char) → List Char
  | [] => []
  | r :: rs => r ++ ';' :: joinRows rs

/-! ### `devices.py`: the per-cycle cache (`CachedValue.value`) -/

/-- The mutable fields of `CachedValue` relevant to the caching contract:
the `_value` slot (`none` both before the first fetch of a cycle and when
a fetch returned Python `None`) and a count of `_fetch_value` calls. -/
structure CacheState (β : Type) where
  cached : Option β
  fetchCount : Nat
deriving DecidableEq, Repr

/-- `CachedValue.value` (lines 53-57): fetch iff `_value is None`, store
the result in `_value`, return it. `fetch` is indexed by the fetch count
so distinct fetches can return distinct samples. -/
def cacheValue {β : Type} (fetch : Nat → Option β) (st : CacheState β) :
    Option β × CacheState β :=
  match st.cached with
  | none =>
    let v := fetch st.fetchCount
    (v, ⟨v, st.fetchCount + 1⟩)
  | some v => (some v, st)

/-! ### `devices.py`: the move-inference machine (`MoveSensor`) -/

/-- `MoveSensor._index_to_move` (lines 155-159): board indices to the
2-character square string, e.g. `(4, 3) ↦ "e4"`. -/
def indexToMove (i j : Nat) : List Char :=
  [Char.ofNat (i + 97), Char.ofNat (j + 49)]

/-- The pending-lift fields of `MoveSensor`: `pick_up` is the most
recently lifted square, `prev_pick_up` the one lifted before it. -/
structure SensorState where
  pick_up : Option (List Char)
  prev_pick_up : Option (List Char)
deriving DecidableEq, Repr

/-- `MoveSensor._fetch_value` (lines 176-194): given the matrix's newly
appeared coordinates for this cycle, emit the inferred move string (or
`none`) and the updated pending-lift state. Only the first element of the
newly set is consulted. -/
def sensorFetch (st : SensorState) (newly : List (Nat × Nat)) :
    Option (List Char) × SensorState :=
  match st.pick_up with
  | none => (none, st)
  | some pu =>
    match newly with
    | [] => (none, st)
    | idx :: _ =>
      let set_down := indexToMove idx.1 idx.2
      let res : Option (List Char) :=
        match st.prev_pick_up with
        | none => if set_down = pu then none else some (pu ++ set_down)
        | some ppu => if pu = set_down then some (ppu ++ set_down) else none
      (res, ⟨none, none⟩)

/-- The pending-lift update in `MoveSensor.reset` (lines 196-203): when a
square newly vanished this cycle, shift `pick_up` into `prev_pick_up` and
remember the first vanished square as the new `pick_up`. -/
def sensorReset (st : SensorState) (oldly : List (Nat × Nat)) : SensorState :=
  match oldly with
  | [] => st
  | idx :: _ => ⟨some (indexToMove idx.1 idx.2), st.pick_up⟩

/-! ## Claims about the move-inference machine -/

/-- C1, counterexample. In TwoLifted (first lifted `e4`, then `d5`), a
placement back on the first-lifted square `e4 = (4,3)` clears *both*
pending squares (state becomes Idle, `pick_up = none`), not OneLifted
with `d5` pending as the claim states; and a placement on a third square
`c3 = (2,2)` emits no candidate, where the claim demands
`MoveCandidate(e4, c3, capture)`. -/
theorem claim1_counterexample :
    sensorFetch ⟨some ['d', '5'], some ['e', '4']⟩ [(4, 3)]
      = (none, ⟨none, none⟩) ∧
    (SensorState.mk none none) ≠ ⟨some ['d', '5'], none⟩ ∧
    sensorFetch ⟨some ['d', '5'], some ['e', '4']⟩ [(2, 2)]
      = (none, ⟨none, none⟩) := by
  refine ⟨rfl, by decide, rfl⟩

/-- C1, amended. In TwoLifted (`prev_pick_up` = first-lifted square,
`pick_up` = second-lifted square), on a cycle where a square newly
appears: if the placed square equals the *second*-lifted square the
machine emits a candidate whose origin is the first-lifted square and
whose destination is the placed square; otherwise (including a placement
back on the first-lifted square) it emits nothing. In every case it
returns to Idle, clearing both pending squares. -/
theorem claim1_amended (first second : List Char) (p : Nat × Nat)
    (rest : List (Nat × Nat)) :
    sensorFetch ⟨some second, some first⟩ (p :: rest)
      = (if second = indexToMove p.1 p.2
           then some (first ++ indexToMove p.1 p.2) else none,
         ⟨none, none⟩) := rfl

/-- C2. In OneLifted with remembered square `s`, on a cycle where a
square newly appears: a placement back on `s` emits no candidate, any
other placement emits a candidate from `s` to the placed square, and in
both cases the machine returns to Idle. -/
theorem claim2_one_lifted (s : List Char) (p : Nat × Nat)
    (rest : List (Nat × Nat)) :
    sensorFetch ⟨some s, none⟩ (p :: rest)
      = (if indexToMove p.1 p.2 = s
           then none else some (s ++ indexToMove p.1 p.2),
         ⟨none, none⟩) := rfl

/-! ## Claims about the per-cycle cache -/

/-- C8, counterexample. When `_fetch_value` returns Python `None` (as
`MoveSensor._fetch_value` does in the Idle state), the `None` result is
indistinguishable from an empty cache, so a second `value` access within
the same cycle fetches again: two accesses perform two fetches, not one. -/
theorem claim8_counterexample :
    ((cacheValue (fun _ => (sensorFetch ⟨none, none⟩ []).1)
        ((cacheValue (fun _ => (sensorFetch ⟨none, none⟩ []).1)
          ⟨none, 0⟩).2)).2).fetchCount = 2 ∧
    ((cacheValue (fun _ => (sensorFetch ⟨none, none⟩ []).1)
        ((cacheValue (fun _ => (sensorFetch ⟨none, none⟩ []).1)
          ⟨none, 0⟩).2)).2).fetchCount ≠ 1 := by
  exact ⟨rfl, by decide⟩

/-- C8, amended. Within one cycle, when the first `value` access's fetch
returns an actual value (not Python `None`), that access performs exactly
one fetch and caches the result, and the subsequent access returns the
cached sample without fetching (state, including the fetch count, is
unchanged). -/
theorem claim8_amended {β : Type} (fetch : Nat → Option β) (n : Nat) (v : β)
    (h : fetch n = some v) :
    cacheValue fetch ⟨none, n⟩ = (some v, ⟨some v, n + 1⟩) ∧
    cacheValue fetch ⟨some v, n + 1⟩ = (some v, ⟨some v, n + 1⟩) := by
  constructor
  · simp [cacheValue, h]
  · rfl

/-- C8, witness: a fetch returning `some true` is performed once and then
served from the cache. -/
theorem claim8_witness :
    cacheValue (fun _ => some true) ⟨none, 0⟩ = (some true, ⟨some true, 1⟩) ∧
    cacheValue (fun _ => some true) ⟨some true, 1⟩
      = (some true, ⟨some true, 1⟩) :=
  claim8_amended (fun _ => some true) 0 true rfl

/-! ## Auxiliary lemmas: splitting and integer parsing -/

theorem splitSemi_ne_nil (l : List Char) : splitSemi l ≠ [] := by
  induction l with
  | nil => simp [splitSemi]
  | cons c cs ih =>
    by_cases hc : c = ';'
    · simp [splitSemi, hc]
    · simp only [splitSemi, if_neg hc]
      cases h : splitSemi cs with
      | nil => exact absurd h ih
      | cons r rs => simp

theorem splitSemi_append (r t : List Char) (hr : ';' ∉ r) :
    splitSemi (r ++ ';' :: t) = r :: splitSemi t := by
  induction r with
  | nil => simp [splitSemi]
  | cons c cs ih =>
    have hc : c ≠ ';' := by rintro rfl; exact hr (List.mem_cons_self _ _)
    have hcs : ';' ∉ cs := fun h => hr (List.mem_cons_of_mem _ h)
    rw [List.cons_append, splitSemi, if_neg hc, ih hcs]

theorem splitSemi_joinRows (rows : List (List Char))
    (h : ∀ r ∈ rows, ';' ∉ r) :
    splitSemi (joinRows rows) = rows ++ [[]] := by
  induction rows with
  | nil => simp [joinRows, splitSemi]
  | cons r rs ih =>
    simp only [joinRows]
    rw [splitSemi_append r _ (h r (List.mem_cons_self _ _)),
        ih (fun x hx => h x (List.mem_cons_of_mem _ hx))]
    rfl

theorem decodeMatrixLine_joinRows (rows : List (List Char)) (rev : Bool)
    (h : ∀ r ∈ rows, ';' ∉ r) :
    decodeMatrixLine (joinRows rows) rev
      = rows.map (fun row => row.map (fun v => xor (v == '1') rev)) := by
  unfold decodeMatrixLine
  rw [splitSemi_joinRows rows h, List.dropLast_concat]

theorem mem_dropWhile_of_not {p : Char → Bool} {c : Char} (hc : p c = false) :
    ∀ {l : List Char}, c ∈ l → c ∈ l.dropWhile p := by
  intro l
  induction l with
  | nil => simp
  | cons x xs ih =>
    intro h
    by_cases hx : p x
    · rw [List.dropWhile_cons_of_pos hx]
      rcases List.mem_cons.mp h with rfl | h'
      · rw [hx] at hc; cases hc
      · exact ih h'
    · rw [List.dropWhile_cons_of_neg hx]; exact h

theorem mem_pyStrip {c : Char} (hc : isPyWS c = false) {s : List Char}
    (h : c ∈ s) : c ∈ pyStrip s := by
  unfold pyStrip
  rw [List.mem_reverse]
  exact mem_dropWhile_of_not hc (List.mem_reverse.mpr (mem_dropWhile_of_not hc h))

theorem pyIntDigits_none {u : List Char} (h : ';' ∈ u) (neg : Bool) :
    pyIntDigits u neg = none := by
  unfold pyIntDigits
  rw [if_neg]
  rintro ⟨-, hall⟩
  have hdig : Char.isDigit ';' = true := List.all_eq_true.mp hall ';' h
  exact absurd hdig (by decide)

theorem pyIntParse_none_of_semi {s : List Char} (h : ';' ∈ s) :
    pyIntParse s = none := by
  have hmem : ';' ∈ pyStrip s := mem_pyStrip (by decide) h
  unfold pyIntParse
  rcases hps : pyStrip s with - | ⟨c, u⟩
  · rfl
  · rw [hps] at hmem
    rw [pyIntSigned]
    by_cases h1 : c = '+'
    · subst h1
      rw [if_pos rfl]
      refine pyIntDigits_none ?_ _
      rcases List.mem_cons.mp hmem with h2 | h2
      · exact absurd h2 (by decide)
      · exact h2
    · rw [if_neg h1]
      by_cases h2 : c = '-'
      · subst h2
        rw [if_pos rfl]
        refine pyIntDigits_none ?_ _
        rcases List.mem_cons.mp hmem with h3 | h3
        · exact absurd h3 (by decide)
        · exact h3
      · rw [if_neg h2]
        exact pyIntDigits_none hmem _

/-! ## Claims about matrix telemetry decoding -/

/-- C3. A telemetry line with 7 rows instead of 8 is decoded silently
into a 7-row grid: `DigitalInputMatrix._fetch_value` performs no row- or
column-count validation, raises nothing, and truncates nothing — it
simply returns however many rows the line contains. -/
theorem claim3_silent_truncation :
    decodeMatrixLine (joinRows (List.replicate 7 (List.replicate 8 '0'))) false
      = List.replicate 7 (List.replicate 8 false) ∧
    (decodeMatrixLine (joinRows (List.replicate 7 (List.replicate 8 '0')))
        false).length ≠ 8 := by
  exact ⟨by decide, by decide⟩

/-- C4. For every well-formed matrix telemetry line (8 rows of 8
`'0'`/`'1'` characters, each row followed by `;`): the decode loop of
`DigitalInputMatrix._fetch_value` yields exactly the grid that is true
where the character is `'1'`, XOR the reversed flag — but the fetch never
receives the line, because `Serial.get_value` applies `int(...)` to every
response line and the `;` separators make that parse raise `ValueError`. -/
theorem claim4_matrix_fetch (rows : List (List Char)) (rev : Bool)
    (hlen : rows.length = 8)
    (hrow : ∀ r ∈ rows, r.length = 8 ∧ ∀ c ∈ r, c = '0' ∨ c = '1') :
    get_value true (.str ['A', '0']) (joinRows rows) = .error .valueError ∧
    decodeMatrixLine (joinRows rows) rev
      = rows.map (fun row => row.map (fun v => xor (v == '1') rev)) := by
  have hns : ∀ r ∈ rows, ';' ∉ r := by
    intro r hr hsemi
    rcases (hrow r hr).2 ';' hsemi with h | h <;> exact absurd h (by decide)
  constructor
  · have hsemi : ';' ∈ joinRows rows := by
      rcases rows with - | ⟨r, rs⟩
      · simp at hlen
      · simp [joinRows]
    have hp := pyIntParse_none_of_semi hsemi
    have hport : is_valid_port (.str ['A', '0']) = true := by decide
    simp [get_value, check_inputs, hport, valueCheck, modeCheck, speedCheck, hp]
  · exact decodeMatrixLine_joinRows rows rev hns

/-- C4, witness: the all-empty board line decodes to the all-false grid,
and `get_value` raises on it. -/
theorem claim4_witness :
    get_value true (.str ['A', '0'])
        (joinRows (List.replicate 8 (List.replicate 8 '0')))
      = .error .valueError ∧
    decodeMatrixLine (joinRows (List.replicate 8 (List.replicate 8 '0'))) false
      = (List.replicate 8 (List.replicate 8 '0')).map
          (fun row => row.map (fun v => xor (v == '1') false)) :=
  claim4_matrix_fetch (List.replicate 8 (List.replicate 8 '0')) false
    (by decide) (by decide)

/-! ## Auxiliary lemmas: decimal rendering lengths -/

theorem natDec_eq_of_lt_ten (n : Nat) (h : n < 10) :
    natDec n = [Char.ofNat (48 + n)] := by
  simp [natDec, natDecAux, h]

theorem natDec_length_two (n : Nat) (h1 : 10 ≤ n) (h2 : n < 100) :
    (natDec n).length = 2 := by
  obtain ⟨l, rfl⟩ : ∃ l, n = l + 1 := ⟨n - 1, by omega⟩
  simp [natDec, natDecAux, show ¬(l + 1 < 10) by omega,
        show (l + 1) / 10 < 10 by omega]

theorem natDec_length_three (n : Nat) (h1 : 100 ≤ n) (h2 : n < 1000) :
    (natDec n).length = 3 := by
  obtain ⟨l, rfl⟩ : ∃ l, n = l + 1 + 1 := ⟨n - 2, by omega⟩
  simp [natDec, natDecAux, show ¬(l + 1 + 1 < 10) by omega,
        show ¬((l + 1 + 1) / 10 < 10) by omega,
        show (l + 1 + 1) / 10 / 10 < 10 by omega]

/-! ## Claims about the transport codec -/

/-- C5. For every integer port 0-13 (accepted by `is_valid_port`) and any
value, `set_value` raises `TypeError`: the value clause of `check_inputs`
subscripts the port (`port[0]`) before testing the value, and an int is
not subscriptable — the claimed frame is never produced. For the
2-character string ports the claimed frame `"<port>:<valuecode>"` is
produced (note: no zero-padding is applied to string ports; they are
already 2 characters). -/
theorem claim5_encode_set_value :
    (∀ (conn : Bool) (n : Int) (v : PyVal), 0 ≤ n → n ≤ 13 →
        set_value conn (.int n) v = .error .typeError) ∧
    (∀ (s : List Char) (v : PyVal), is_valid_port (.str s) = true →
        is_valid_value v = true →
        set_value true (.str s) v = .ok (some (s ++ ':' :: format_value v))) := by
  constructor
  · intro conn n v h1 h2
    have hp : is_valid_port (.int n) = true := by
      simp only [is_valid_port, decide_eq_true_eq]; omega
    simp [set_value, check_inputs, hp, valueCheck]
  · intro s v hp hv
    rcases s with - | ⟨c, rest⟩
    · simp [is_valid_port] at hp
    · have hvc : valueCheck (.str (c :: rest)) (some v) = .ok () := by
        show (if c ≠ 'S' ∧ is_valid_value v = false then Except.error PyErr.valueError
              else Except.ok ()) = .ok ()
        rw [if_neg]
        rintro ⟨-, hfalse⟩
        rw [hv] at hfalse
        cases hfalse
      simp [set_value, check_inputs, hp, hvc, modeCheck, speedCheck, format_port]

/-- C5, witness: port 5 with value `True` raises `TypeError` (instead of
producing `"05:H"`), while the string port `"A0"` produces `"A0:H"`. -/
theorem claim5_witness :
    set_value true (.int 5) (.bool true) = .error .typeError ∧
    set_value true (.str ['A', '0']) (.bool true)
      = .ok (some (['A', '0'] ++ ':' :: format_value (.bool true))) :=
  ⟨claim5_encode_set_value.1 true 5 (.bool true) (by decide) (by decide),
   claim5_encode_set_value.2 ['A', '0'] (.bool true) (by decide) (by decide)⟩

/-- C6, counterexample. On the stepper port `"S0"` the value check is
skipped (`port[0] != 'S'` guards it), so the out-of-range value 300 is
not rejected: the frame `"S0:12c"` is formatted and written to the wire,
where the claim demands a validation error and no write. -/
theorem claim6_counterexample :
    set_value true (.str ['S', '0']) (.int 300)
      = .ok (some ['S', '0', ':', '1', '2', 'c']) := rfl

/-- C6, amended. Validation still precedes formatting, but not on every
port: for a valid string port whose first character is not `'S'`, a value
that is neither a boolean nor an integer in `[0,256)` raises `ValueError`
and nothing is written; for an integer port every value-bearing call
raises (`TypeError` from the `port[0]` subscript, or `ValueError` for an
out-of-range port) and nothing is written; but for stepper ports
`"S0"`/`"S1"` the value check is skipped and the (possibly invalid) value
is formatted and written. -/
theorem claim6_amended :
    (∀ (conn : Bool) (c0 : Char) (rest : List Char) (v : PyVal),
        is_valid_port (.str (c0 :: rest)) = true → c0 ≠ 'S' →
        is_valid_value v = false →
        set_value conn (.str (c0 :: rest)) v = .error .valueError) ∧
    (∀ (conn : Bool) (n : Int) (v : PyVal),
        ∃ e, set_value conn (.int n) v = .error e) ∧
    (∀ (d : Char) (v : PyVal), d = '0' ∨ d = '1' →
        set_value true (.str ['S', d]) v
          = .ok (some (['S', d, ':'] ++ format_value v))) := by
  refine ⟨?_, ?_, ?_⟩
  · intro conn c0 rest v hp hc hv
    have hvc : valueCheck (.str (c0 :: rest)) (some v) = .error .valueError := by
      show (if c0 ≠ 'S' ∧ is_valid_value v = false then Except.error PyErr.valueError
            else Except.ok ()) = .error .valueError
      rw [if_pos ⟨hc, hv⟩]
    simp [set_value, check_inputs, hp, hvc]
  · intro conn n v
    by_cases hp : is_valid_port (.int n) = true
    · exact ⟨.typeError, by simp [set_value, check_inputs, hp, valueCheck]⟩
    · have hp' : is_valid_port (.int n) = false := by
        revert hp
        cases is_valid_port (.int n) <;> simp
      exact ⟨.valueError, by simp [set_value, check_inputs, hp']⟩
  · intro d v hd
    have hvc : ∀ t, valueCheck (.str ('S' :: t)) (some v) = .ok () := by
      intro t
      show (if 'S' ≠ 'S' ∧ is_valid_value v = false then Except.error PyErr.valueError
            else Except.ok ()) = .ok ()
      rw [if_neg]
      rintro ⟨hne, -⟩
      exact hne rfl
    rcases hd with rfl | rfl
    · have hp : is_valid_port (.str ['S', '0']) = true := by decide
      simp [set_value, check_inputs, hp, hvc, modeCheck, speedCheck, format_port]
    · have hp : is_valid_port (.str ['S', '1']) = true := by decide
      simp [set_value, check_inputs, hp, hvc, modeCheck, speedCheck, format_port]

/-- C6, witness: `"A0"` with value 300 raises `ValueError`; the integer
port 7 with value 300 raises; `"S1"` with the invalid value 999 is
written as `"S1:<hex 999>"`. -/
theorem claim6_witness :
    set_value true (.str ['A', '0']) (.int 300) = .error .valueError ∧
    (∃ e, set_value true (.int 7) (.int 300) = .error e) ∧
    set_value true (.str ['S', '1']) (.int 999)
      = .ok (some (['S', '1', ':'] ++ format_value (.int 999))) :=
  ⟨claim6_amended.1 true 'A' ['0'] (.int 300) (by decide) (by decide) (by decide),
   claim6_amended.2.1 true 7 (.int 300),
   claim6_amended.2.2 '1' (.int 999) (Or.inr rfl)⟩

/-- C7, counterexample. The 2-character string `"05"` is not in the
claimed acceptance set `{0..13, "A0".."A5", "M0".."M3", "S0", "S1"}`, yet
`is_valid_port` accepts it: the fallback branch casts the string with
`int(...)` and `int("05") = 5` lands in range. -/
theorem claim7_counterexample : is_valid_port (.str ['0', '5']) = true := by
  decide

/-- C7, amended. `is_valid_port` accepts exactly: the integers 0..13; the
2-character codes `A0`-`A5`, `M0`-`M3`, `S0`-`S1`; and every other
2-character string whose `int(...)` cast (optionally signed, optionally
whitespace-surrounded decimal) yields a value in `[0,13]` — e.g. `"05"`,
`"+5"`, `" 5"`. Everything else, including the empty string and strings
of 3 or more characters, is rejected. -/
theorem claim7_amended (p : PyPort) :
    is_valid_port p = true ↔
      ((∃ n, p = .int n ∧ 0 ≤ n ∧ n ≤ 13) ∨
       (∃ c, p = .str ['A', c] ∧
          (c = '0' ∨ c = '1' ∨ c = '2' ∨ c = '3' ∨ c = '4' ∨ c = '5')) ∨
       (∃ c, p = .str ['M', c] ∧ (c = '0' ∨ c = '1' ∨ c = '2' ∨ c = '3')) ∨
       (∃ c, p = .str ['S', c] ∧ (c = '0' ∨ c = '1')) ∨
       (∃ a b, p = .str [a, b] ∧ a ≠ 'A' ∧ a ≠ 'M' ∧ a ≠ 'S' ∧
          ∃ k, pyIntParse [a, b] = some k ∧ 0 ≤ k ∧ k ≤ 13)) := by
  cases p with
  | int n => simp [is_valid_port]
  | str s =>
    match s with
    | [] => simp [is_valid_port]
    | [a] => simp [is_valid_port]
    | a :: b :: c :: rest => simp [is_valid_port]
    | [a, b] =>
      by_cases hA : a = 'A'
      · subst hA
        simp [is_valid_port, List.contains]
      · by_cases hM : a = 'M'
        · subst hM
          simp [is_valid_port, List.contains]
        · by_cases hS : a = 'S'
          · subst hS
            simp [is_valid_port, List.contains]
          · cases hk : pyIntParse [a, b] with
            | none => simp [is_valid_port, hA, hM, hS, hk]
            | some k =>
              simp [is_valid_port, hA, hM, hS, hk]
              constructor
              · rintro ⟨h1, h2⟩
                exact ⟨a, b, ⟨rfl, rfl⟩, hA, hM, hS, k, hk, h1, h2⟩
              · rintro ⟨a1, b1, ⟨rfl, rfl⟩, -, -, -, k', hk', h1, h2⟩
                rw [hk] at hk'
                injection hk' with hkk
                subst hkk
                exact ⟨h1, h2⟩

/-- C9, counterexample. `is_valid_speed` accepts 100, and
`format_speed 100 = "100"` — three characters, not the claimed 2-digit
zero-padded rendering: the frame written is `"S0-100"`. -/
theorem claim9_counterexample :
    set_speed true (.str ['S', '0']) 100
      = .ok (some ['S', '0', '-', '1', '0', '0']) ∧
    (['1', '0', '0'] : List Char).length ≠ 2 := by
  exact ⟨rfl, by decide⟩

/-- C9, amended. For a stepper port `"S0"`/`"S1"` and any speed accepted
by `is_valid_speed` (an integer in `(0,256)`), `set_speed` writes the
frame `"<port>-<DD>"` where `DD = format_speed speed` is the decimal
rendering zero-padded only when `speed < 10`: it is 2 digits for speeds
1-99 and 3 digits for speeds 100-255. -/
theorem claim9_amended (d : Char) (speed : Int) (hd : d = '0' ∨ d = '1')
    (h1 : 0 < speed) (h2 : speed < 256) :
    set_speed true (.str ['S', d]) speed
      = .ok (some (['S', d, '-'] ++ format_speed speed)) ∧
    (speed < 100 → (format_speed speed).length = 2) ∧
    (100 ≤ speed → (format_speed speed).length = 3) := by
  have hsp : is_valid_speed speed = true := by
    simp only [is_valid_speed, decide_eq_true_eq]
    exact ⟨h1, h2⟩
  refine ⟨?_, ?_, ?_⟩
  · have hchk : check_inputs (.str ['S', d]) none none (some speed) = .ok () := by
      have hp : is_valid_port (.str ['S', d]) = true := by
        rcases hd with rfl | rfl <;> decide
      simp [check_inputs, hp, valueCheck, modeCheck, speedCheck, hsp]
    simp [set_speed, hchk]
  · intro hlt
    have hnn : ¬(speed < 0) := by omega
    simp only [format_speed, intDec, if_neg hnn]
    by_cases h10 : speed < 10
    · rw [if_pos h10, natDec_eq_of_lt_ten speed.toNat (by omega)]
      rfl
    · rw [if_neg h10, natDec_length_two speed.toNat (by omega) (by omega)]
  · intro hge
    have hnn : ¬(speed < 0) := by omega
    have h10 : ¬(speed < 10) := by omega
    simp only [format_speed, intDec, if_neg hnn, if_neg h10]
    exact natDec_length_three speed.toNat (by omega) (by omega)

/-- C9, witness: speed 100 on `"S1"` is accepted and rendered with three
digits. -/
theorem claim9_witness :
    set_speed true (.str ['S', '1']) 100
      = .ok (some (['S', '1', '-'] ++ format_speed 100)) ∧
    ((100 : Int) < 100 → (format_speed 100).length = 2) ∧
    ((100 : Int) ≤ 100 → (format_speed 100).length = 3) :=
  claim9_amended '1' 100 (Or.inr rfl) (by decide) (by decide)

/-! ## Claims about the disconnected transport -/

theorem setValue_disconnected (p : PyPort) (v : PyVal) :
    set_value false p v = (set_value true p v).map (fun _ => none) := by
  unfold set_value
  rcases check_inputs p (some v) none none with e | u <;> rfl

theorem setMode_disconnected (p : PyPort) (m : List Char) :
    set_mode false p m = (set_mode true p m).map (fun _ => none) := by
  unfold set_mode
  rcases check_inputs p none (some m) none with e | u <;> rfl

theorem setSpeed_disconnected (p : PyPort) (sp : Int) :
    set_speed false p sp = (set_speed true p sp).map (fun _ => none) := by
  cases p with
  | int n => rfl
  | str s =>
    cases s with
    | nil => rfl
    | cons c rest =>
      simp only [set_speed]
      by_cases hc : c = 'M'
      · rw [if_pos hc, if_pos hc]
        exact setValue_disconnected _ _
      · rw [if_neg hc, if_neg hc]
        rcases check_inputs (.str (c :: rest)) none none (some sp) with e | u
        · rfl
        · by_cases hs : c ≠ 'S'
          · rw [if_pos hs, if_pos hs]; rfl
          · rw [if_neg hs, if_neg hs]; rfl

theorem getValue_disconnected (p : PyPort) (line : List Char)
    (hp : is_valid_port p = true) : get_value false p line = .ok none := by
  simp [get_value, check_inputs, hp, valueCheck, modeCheck, speedCheck]

/-- C10, counterexample. The claim says the setters "still validate their
inputs (raising on invalid ones)": but on the disconnected serial the
stepper port `"S0"` with the invalid value 300 raises nothing (the value
check is skipped for `'S'` ports), returning normally without a write. -/
theorem claim10_counterexample :
    set_value false (.str ['S', '0']) (.int 300) = .ok none := rfl

/-- C10, amended. With `connected = False`, `set_value`, `set_mode` and
`set_speed` behave exactly as their connected counterparts up to the
write: the same validation runs (the same error is raised on the same
inputs — including the stepper-port value exemption and the integer-port
`TypeError`), and on the non-raising paths nothing is written; and
`get_value` on any valid port returns `None` instead of an integer. -/
theorem claim10_amended :
    (∀ (p : PyPort) (v : PyVal),
        set_value false p v = (set_value true p v).map (fun _ => none)) ∧
    (∀ (p : PyPort) (m : List Char),
        set_mode false p m = (set_mode true p m).map (fun _ => none)) ∧
    (∀ (p : PyPort) (sp : Int),
        set_speed false p sp = (set_speed true p sp).map (fun _ => none)) ∧
    (∀ (p : PyPort) (line : List Char), is_valid_port p = true →
        get_value false p line = .ok none) :=
  ⟨setValue_disconnected, setMode_disconnected, setSpeed_disconnected,
   getValue_disconnected⟩

/-- C10, witness: a disconnected `set_mode` on port 3 mirrors the
connected call with no frame, and a disconnected `get_value` on `"A0"`
returns `None`. -/
theorem claim10_witness :
    set_mode false (.int 3) ['O', 'U', 'T', 'P', 'U', 'T']
      = (set_mode true (.int 3) ['O', 'U', 'T', 'P', 'U', 'T']).map
          (fun _ => none) ∧
    get_value false (.str ['A', '0']) [] = .ok none :=
  ⟨claim10_amended.2.1 (.int 3) ['O', 'U', 'T', 'P', 'U', 'T'],
   claim10_amended.2.2.2 (.str ['A', '0']) [] (by decide)⟩

end ChessCtl
